import Mathlib

/-!
Verification of the vmds Terraform provider's cluster lifecycle polling
loops and response-to-state mappers.

The definitions below are a shallow embedding of the Go source:

* `saveFromResponse` embeds `saveFromResponse` of `mds/resource_cluster.go`
  (lines 441-484): it copies the API snapshot fields into the Terraform
  state model, defaulting the metadata object when the response carries
  none, and leaves `NetworkPolicyIds`, `Dedicated` and `Shared` untouched,
  exactly as the source does.
* `pollLoop` embeds the status-polling `for` loop of
  `clusterResource.Create` (lines 297-307): while the observed status is
  neither "READY" nor "FAILED" it consumes the next fetch result; a fetch
  error aborts with a transport-error outcome.  The supply of fetch
  results is a finite list, so a run that is still pending when the list
  is exhausted ends in the model-only outcome `outOfFetches` (the Go loop
  has no budget and would keep polling).
* `clusterCreateFlow` embeds `clusterResource.Create` from the
  list-fetch `GetMdsClusters` onward (lines 271-319): empty list check,
  the initial "FAILED" check, the polling loop, and the final
  `saveFromResponse`/state write on loop exit.
* `deleteConfirmLoop` embeds the confirmation loop of
  `clusterResource.Delete` (lines 417-431): each iteration fetches once;
  an API error with HTTP status 404 breaks out as success, any other
  error aborts with a diagnostic, and a successful fetch just iterates.

Fetch counts are returned alongside outcomes so that "after exactly k
fetches" and "makes no further fetch calls" become provable statements.
-/

/-- Metadata part of the API cluster snapshot (`model.MdsCluster.Metadata`). -/
structure MdsClusterMetadata where
  ManagerUri : String
  ConnectionUri : String
  MetricsEndpoints : List String
  deriving DecidableEq

/-- API cluster snapshot (`model.MdsCluster`), the fields read by the provider. -/
structure MdsCluster where
  ID : String
  Name : String
  ServiceType : String
  Provider : String
  InstanceSize : String
  Region : String
  Status : String
  OrgId : String
  DataPlaneId : String
  LastUpdated : String
  Created : String
  Metadata : Option MdsClusterMetadata
  Tags : List String
  deriving DecidableEq

/-- The nested metadata object of the Terraform state (`clusterMetadataModel`).
`MetricsEndpoints = none` models `types.ListNull`. -/
structure ClusterMetadataState where
  ManagerUri : String
  ConnectionUri : String
  MetricsEndpoints : Option (List String)
  deriving DecidableEq

/-- Terraform state/plan model of the cluster resource (`clusterResourceModel`). -/
structure ClusterResourceModel where
  ID : String
  OrgId : String
  Name : String
  ServiceType : String
  Provider : String
  InstanceSize : String
  Region : String
  Tags : List String
  NetworkPolicyIds : List String
  Dedicated : Bool
  Shared : Bool
  Status : String
  DataPlaneId : String
  LastUpdated : String
  Created : String
  Metadata : ClusterMetadataState
  deriving DecidableEq

/-- Embedding of `saveFromResponse` (resource_cluster.go:441-484).  Copies
every snapshot field it reads into the state, builds the metadata object
from the response (defaulting to empty strings and a null list when the
response has no metadata), and replaces the tags.  `NetworkPolicyIds`,
`Dedicated` and `Shared` are not mentioned by the source and therefore
pass through unchanged. -/
def saveFromResponse (state : ClusterResourceModel) (cluster : MdsCluster) :
    ClusterResourceModel :=
  { state with
    ID := cluster.ID
    Name := cluster.Name
    ServiceType := cluster.ServiceType
    Provider := cluster.Provider
    InstanceSize := cluster.InstanceSize
    Region := cluster.Region
    Status := cluster.Status
    OrgId := cluster.OrgId
    DataPlaneId := cluster.DataPlaneId
    LastUpdated := cluster.LastUpdated
    Created := cluster.Created
    Metadata :=
      match cluster.Metadata with
      | none =>
        { ManagerUri := "", ConnectionUri := "", MetricsEndpoints := none }
      | some m =>
        { ManagerUri := m.ManagerUri
          ConnectionUri := m.ConnectionUri
          MetricsEndpoints := some m.MetricsEndpoints }
    Tags := cluster.Tags }

/-- Error returned by a fetch call: a typed API error carrying an HTTP
status code (`core.ApiError`), or any other error. -/
inductive FetchError where
  | api (statusCode : Nat)
  | generic
  deriving DecidableEq

/-- Result of one `GetMdsCluster` call. -/
inductive FetchResult where
  | ok (c : MdsCluster)
  | err (e : FetchError)
  deriving DecidableEq

/-- Result of the initial `GetMdsClusters` list call. -/
inductive ListFetchResult where
  | ok (cs : List MdsCluster)
  | err (e : FetchError)
  deriving DecidableEq

/-- Outcome of the create status-polling loop together with the snapshot
it last held.  `outOfFetches` is the model-only outcome for a finite
fetch supply running dry while the status is still non-terminal. -/
inductive PollResult where
  | succeeded (last : MdsCluster)
  | transportError
  | outOfFetches
  deriving DecidableEq

/-- Embedding of the `for createdCluster.Status != "READY" &&
createdCluster.Status != "FAILED"` loop of `clusterResource.Create`
(resource_cluster.go:297-307).  Returns the loop outcome and the number
of `GetMdsCluster` fetches the loop performed. -/
def pollLoop : MdsCluster → List FetchResult → PollResult × Nat
  | c, [] =>
    if c.Status ≠ "READY" ∧ c.Status ≠ "FAILED" then (.outOfFetches, 0)
    else (.succeeded c, 0)
  | c, f :: rest =>
    if c.Status ≠ "READY" ∧ c.Status ≠ "FAILED" then
      match f with
      | .err _ => (.transportError, 1)
      | .ok c2 =>
        let r := pollLoop c2 rest
        (r.1, r.2 + 1)
    else (.succeeded c, 0)

/-- Outcome of `clusterResource.Create` after the create request was
submitted.  `succeeded saved` means the operation returned without an
error diagnostic and wrote `saved` to the Terraform state;
`failedStatus` is the "Cluster creation failed with the status 'FAILED'"
diagnostic; `fetchEmpty` the "Unable to fetch the created cluster"
diagnostic; `transportError` any fetch-error diagnostic. -/
inductive CreateOutcome where
  | failedStatus
  | transportError
  | fetchEmpty
  | succeeded (saved : ClusterResourceModel)
  | outOfFetches
  deriving DecidableEq

/-- Embedding of `clusterResource.Create` from the `GetMdsClusters` list
fetch onward (resource_cluster.go:271-319).  The first component of the
pair is the outcome, the second the total number of fetch calls (the
list fetch counts as one fetch). -/
def clusterCreateFlow (plan : ClusterResourceModel) :
    ListFetchResult → List FetchResult → CreateOutcome × Nat
  | .err _, _ => (.transportError, 1)
  | .ok [], _ => (.fetchEmpty, 1)
  | .ok (first :: _), fetches =>
    if first.Status = "FAILED" then (.failedStatus, 1)
    else
      match pollLoop first fetches with
      | (.succeeded last, n) => (.succeeded (saveFromResponse plan last), n + 1)
      | (.transportError, n) => (.transportError, n + 1)
      | (.outOfFetches, n) => (.outOfFetches, n + 1)

/-- Outcome of the delete-confirmation loop of `clusterResource.Delete`. -/
inductive DeleteOutcome where
  | succeeded
  | transportError
  | outOfFetches
  deriving DecidableEq

/-- Embedding of the delete-confirmation loop (resource_cluster.go:417-431):
each iteration performs one `GetMdsCluster` fetch; an `ApiError` with
status 404 breaks out as success, any other error returns a diagnostic,
and a successful fetch continues the loop. -/
def deleteConfirmLoop : List FetchResult → DeleteOutcome × Nat
  | [] => (.outOfFetches, 0)
  | .ok _ :: rest =>
    let r := deleteConfirmLoop rest
    (r.1, r.2 + 1)
  | .err (.api sc) :: _ =>
    if sc = 404 then (.succeeded, 1) else (.transportError, 1)
  | .err .generic :: _ => (.transportError, 1)

/-!
Regions data source (`mds/data_source_regions.go`): the state mapper
`saveRegionsToState` (lines 142-156) appends one `RegionsModel` entry per
region of the response map to `state.Regions`.  The Go map is embedded
as an association list, fixing one iteration order.
-/

/-- One entry of the regions list in the Terraform state (`RegionsModel`). -/
structure RegionsModel where
  ID : String
  Name : String
  DataPlaneIds : List String
  deriving DecidableEq

/-- Terraform state model of the regions data source
(`regionsDataSourceModel`). -/
structure RegionsDataSourceModel where
  Cpu : String
  Provider : String
  Memory : String
  Storage : String
  NodeCount : String
  Regions : List RegionsModel
  DedicatedDataPlane : Bool
  Id : String
  deriving DecidableEq

/-- Embedding of `saveRegionsToState` (data_source_regions.go:142-156):
for each `(regionName, dataPlaneIds)` pair of the response, append an
entry with `ID = Name = regionName` to `state.Regions`. -/
def saveRegionsToState (state : RegionsDataSourceModel)
    (regions : List (String × List String)) : RegionsDataSourceModel :=
  regions.foldl
    (fun st p =>
      { st with
        Regions := st.Regions ++ [{ ID := p.1, Name := p.1, DataPlaneIds := p.2 }] })
    state

/-- The regions-list entries one call of the mapper appends. -/
def regionsEntries (regions : List (String × List String)) : List RegionsModel :=
  regions.map fun p => { ID := p.1, Name := p.1, DataPlaneIds := p.2 }

/-!
Service-roles data source (`serviceRolesDatasource.Read`,
data_source_regions.go:260-306): the query is built with the constant
`role_type.RABBITMQ`, ignoring the configured `type`; the response is
dereferenced with the unguarded index `ServiceRoleDTO[0]`; and a
shadowed nested loop over the same roles slice appends every role once
per outer iteration, with a permissions accumulator that keeps growing
across outer iterations.
-/

/-- One permission of an API role (`PermissionList` fields read by the source). -/
structure MdsPermission where
  Name : String
  Description : String
  PermissionId : String
  deriving DecidableEq

/-- One role of the API response (fields read by the source). -/
structure MdsRole where
  RoleID : String
  Name : String
  Description : String
  «Type» : String
  Permissions : List MdsPermission
  deriving DecidableEq

/-- One `ServiceRoleDTO` of the API response: the source only reads its
`Roles` slice. -/
structure ServiceRoleDTO where
  Roles : List MdsRole
  deriving DecidableEq

/-- Permissions entry of the Terraform state
(`MdsServiceRolePermissionsModel`). -/
structure MdsServiceRolePermissionsModel where
  Name : String
  Description : String
  PermissionId : String
  deriving DecidableEq

/-- Roles entry of the Terraform state (`ServiceRolesModel`). -/
structure ServiceRolesModel where
  RoleId : String
  Name : String
  Description : String
  «Type» : String
  Permissions : List MdsServiceRolePermissionsModel
  deriving DecidableEq

/-- The permissions of one role, mapped to state entries (the inner
`for _, permissionList := range role.Permissions` body). -/
def permissionsOf (r : MdsRole) : List MdsServiceRolePermissionsModel :=
  r.Permissions.map fun p =>
    { Name := p.Name, Description := p.Description, PermissionId := p.PermissionId }

/-- One state roles entry as built in the shadowed inner loop, from a role
and the current value of the `permissionsVal` accumulator. -/
def mkRoleModel (r : MdsRole) (perms : List MdsServiceRolePermissionsModel) :
    ServiceRolesModel :=
  { RoleId := r.RoleID
    Name := r.Name
    Description := r.Description
    «Type» := r.«Type»
    Permissions := perms }

/-- Embedding of the nested loops of `serviceRolesDatasource.Read`
(data_source_regions.go:278-298).  `allRoles` is
`ServiceRoleDTO[0].Roles`, over which both the outer loop (first
argument of the recursion) and the shadowed inner loop range; `permAcc`
is the `permissionsVal` accumulator, which is extended with the current
outer role's permissions and never reset. -/
def rolesLoop (allRoles : List MdsRole) :
    List MdsRole → List MdsServiceRolePermissionsModel → List ServiceRolesModel
  | [], _ => []
  | r :: rest, permAcc =>
    let permAcc2 := permAcc ++ permissionsOf r
    (allRoles.map fun ro => mkRoleModel ro permAcc2) ++ rolesLoop allRoles rest permAcc2

/-- The roles list `serviceRolesDatasource.Read` appends to state for a
response whose first DTO holds `roles`. -/
def serviceRolesRoles (roles : List MdsRole) : List ServiceRolesModel :=
  rolesLoop roles roles []

/-- The query struct sent to `GetMdsServiceRoles` (`MDSRolesQuery`). -/
structure MDSRolesQuery where
  «Type» : String
  deriving DecidableEq

/-- Constant `role_type.RABBITMQ` of the client constants package. -/
def roleTypeRABBITMQ : String := "RABBITMQ"

/-- Embedding of the query construction of `serviceRolesDatasource.Read`
(data_source_regions.go:266-268): the query type is always the constant
`role_type.RABBITMQ`; the configured `type` attribute is not read. -/
def serviceRolesQuery (_cfgType : String) : MDSRolesQuery :=
  { «Type» := roleTypeRABBITMQ }

/-- Result of `serviceRolesDatasource.Read`.  `apiErrorDiag` is the
"Unable to Read MDS Service roles" diagnostic; `indexOutOfRange` models
the Go runtime panic on `ServiceRoleDTO[0]` when the slice is empty;
`okState` carries the roles list appended to state and the `type`
attribute that the state keeps from the configuration. -/
inductive ServiceRolesReadResult where
  | apiErrorDiag
  | indexOutOfRange
  | okState (roles : List ServiceRolesModel) (cfgType : String)
  deriving DecidableEq

/-- Embedding of `serviceRolesDatasource.Read`
(data_source_regions.go:260-306) as a function of the configured `type`
and the fetched response (the list of `ServiceRoleDTO`s, or a fetch
error). -/
def serviceRolesRead (cfgType : String)
    (resp : Except FetchError (List ServiceRoleDTO)) : ServiceRolesReadResult :=
  match resp with
  | .error _ => .apiErrorDiag
  | .ok [] => .indexOutOfRange
  | .ok (dto :: _) => .okState (serviceRolesRoles dto.Roles) cfgType

/-- The roles list of a normal read result, if any. -/
def readRolesList : ServiceRolesReadResult → Option (List ServiceRolesModel)
  | .okState rs _ => some rs
  | _ => none

/-!
Concrete example values used by counterexamples and witnesses.
-/

/-- A concrete metadata object of an API response. -/
def metadataExample : MdsClusterMetadata :=
  { ManagerUri := "https://mgr.example"
    ConnectionUri := "amqps://conn.example"
    MetricsEndpoints := ["https://metrics.example"] }

/-- A snapshot of a cluster that is still provisioning. -/
def pendingCluster : MdsCluster :=
  { ID := "cluster-1", Name := "demo", ServiceType := "RABBITMQ"
    Provider := "aws", InstanceSize := "SMALL", Region := "eu-west-2"
    Status := "IN_PROGRESS", OrgId := "org-1", DataPlaneId := "dp-1"
    LastUpdated := "t1", Created := "t0", Metadata := none, Tags := ["env:test"] }

/-- The same cluster once it reaches status READY. -/
def readyCluster : MdsCluster :=
  { pendingCluster with Status := "READY", Metadata := some metadataExample }

/-- The same cluster once it reaches status FAILED. -/
def failedCluster : MdsCluster :=
  { pendingCluster with Status := "FAILED" }

/-- A concrete plan as it enters `clusterResource.Create`. -/
def planExample : ClusterResourceModel :=
  { ID := "", OrgId := "", Name := "demo", ServiceType := "RABBITMQ"
    Provider := "aws", InstanceSize := "SMALL", Region := "eu-west-2"
    Tags := ["env:test"], NetworkPolicyIds := ["np-1"]
    Dedicated := true, Shared := false, Status := "", DataPlaneId := "dp-1"
    LastUpdated := "", Created := ""
    Metadata := { ManagerUri := "", ConnectionUri := "", MetricsEndpoints := none } }

/-!
Helper lemmas about the polling loops.
-/

/-- A terminal status stops the create polling loop at once, returning the
snapshot it holds without consuming any fetch. -/
theorem pollLoop_terminal (c : MdsCluster) (fetches : List FetchResult)
    (h : ¬(c.Status ≠ "READY" ∧ c.Status ≠ "FAILED")) :
    pollLoop c fetches = (.succeeded c, 0) := by
  cases fetches with
  | nil => simp [pollLoop, h]
  | cons f rest => cases f <;> simp [pollLoop, h]

/-- A pending status consumes the next successful fetch and continues. -/
theorem pollLoop_pending_ok (c c2 : MdsCluster) (rest : List FetchResult)
    (h : c.Status ≠ "READY" ∧ c.Status ≠ "FAILED") :
    pollLoop c (.ok c2 :: rest) = ((pollLoop c2 rest).1, (pollLoop c2 rest).2 + 1) := by
  simp [pollLoop, h]

/-- A pending status hitting a fetch error aborts with a transport error
after that one fetch. -/
theorem pollLoop_pending_err (c : MdsCluster) (e : FetchError) (rest : List FetchResult)
    (h : c.Status ≠ "READY" ∧ c.Status ≠ "FAILED") :
    pollLoop c (.err e :: rest) = (.transportError, 1) := by
  simp [pollLoop, h]

/-- Running the create polling loop across non-terminal snapshots up to a
READY one: it consumes exactly the pending fetches plus the READY fetch
and succeeds with the READY snapshot. -/
theorem pollLoop_ready_run (mids : List MdsCluster) (first last : MdsCluster)
    (rest : List FetchResult)
    (hpend : ∀ c ∈ first :: mids, c.Status ≠ "READY" ∧ c.Status ≠ "FAILED")
    (hlast : last.Status = "READY") :
    pollLoop first ((mids ++ [last]).map FetchResult.ok ++ rest)
      = (.succeeded last, mids.length + 1) := by
  induction mids generalizing first with
  | nil =>
    have h1 := hpend first (by simp)
    simp only [List.nil_append, List.map_cons, List.map_nil, List.singleton_append,
      List.cons_append]
    rw [pollLoop_pending_ok first last rest h1,
      pollLoop_terminal last rest (by simp [hlast])]
    rfl
  | cons m ms ih =>
    have h1 := hpend first (by simp)
    have h2 : ∀ c ∈ m :: ms, c.Status ≠ "READY" ∧ c.Status ≠ "FAILED" := by
      intro c hc
      exact hpend c (by simp at hc ⊢; tauto)
    simp only [List.cons_append, List.map_cons]
    rw [pollLoop_pending_ok first m _ h1, ih m h2]
    simp [Nat.add_comm]

/-- Running the create polling loop across non-terminal snapshots into a
fetch error: it consumes exactly the pending fetches plus the failing
fetch and aborts with a transport error. -/
theorem pollLoop_err_run (mids : List MdsCluster) (first : MdsCluster)
    (e : FetchError) (rest : List FetchResult)
    (hpend : ∀ c ∈ first :: mids, c.Status ≠ "READY" ∧ c.Status ≠ "FAILED") :
    pollLoop first (mids.map FetchResult.ok ++ FetchResult.err e :: rest)
      = (.transportError, mids.length + 1) := by
  induction mids generalizing first with
  | nil =>
    have h1 := hpend first (by simp)
    simpa using pollLoop_pending_err first e rest h1
  | cons m ms ih =>
    have h1 := hpend first (by simp)
    have h2 : ∀ c ∈ m :: ms, c.Status ≠ "READY" ∧ c.Status ≠ "FAILED" := by
      intro c hc
      exact hpend c (by simp at hc ⊢; tauto)
    simp only [List.cons_append, List.map_cons]
    rw [pollLoop_pending_ok first m _ h1, ih m h2]
    simp [Nat.add_comm]

/-- Successful fetches only make the delete-confirmation loop iterate:
the outcome is decided by what follows them, with the fetch count
shifted by their number. -/
theorem deleteConfirmLoop_ok_run (cs : List MdsCluster) (tail : List FetchResult) :
    deleteConfirmLoop (cs.map FetchResult.ok ++ tail)
      = ((deleteConfirmLoop tail).1, (deleteConfirmLoop tail).2 + cs.length) := by
  induction cs with
  | nil => simp
  | cons c cs ih =>
    simp only [List.map_cons, List.cons_append, deleteConfirmLoop, List.length_cons,
      List.append_eq]
    rw [ih]
    simp [Nat.add_assoc]

/-- If the delete-confirmation loop reports success after n fetches, the
n-th fetch (and no earlier one) was the 404 that confirmed absence; in
particular n is at least 1. -/
theorem deleteConfirmLoop_succeeded_spec (fetches : List FetchResult) (n : Nat)
    (h : deleteConfirmLoop fetches = (.succeeded, n)) :
    1 ≤ n ∧ fetches.get? (n - 1) = some (.err (.api 404)) := by
  induction fetches generalizing n with
  | nil => simp [deleteConfirmLoop] at h
  | cons f rest ih =>
    match f with
    | .ok c =>
      have h1 : (deleteConfirmLoop rest).1 = .succeeded := by
        have := congrArg Prod.fst h
        simpa [deleteConfirmLoop] using this
      have h2 : n = (deleteConfirmLoop rest).2 + 1 := by
        have := congrArg Prod.snd h
        simpa [deleteConfirmLoop] using this.symm
      obtain ⟨hm, hg⟩ := ih (deleteConfirmLoop rest).2 (by rw [← h1])
      subst h2
      refine ⟨by omega, ?_⟩
      have hidx : (deleteConfirmLoop rest).2 + 1 - 1 = ((deleteConfirmLoop rest).2 - 1) + 1 := by
        omega
      rw [hidx, List.get?_cons_succ]
      exact hg
    | .err (.api sc) =>
      by_cases hsc : sc = 404
      · subst hsc
        have h2 : n = 1 := by
          have := congrArg Prod.snd h
          simpa [deleteConfirmLoop] using this.symm
        subst h2
        exact ⟨le_refl 1, rfl⟩
      · simp [deleteConfirmLoop, hsc] at h
    | .err .generic =>
      simp [deleteConfirmLoop] at h

/-!
Claims about the cluster lifecycle polling loops.
-/

/-- C1 (code bug evidence): the create flow returns the Failed diagnostic
only when the very first fetched status is FAILED.  For the fetch
sequence [pending, failed] the loop exits on FAILED and the flow falls
through to `saveFromResponse`, returning success after 2 fetches and
writing the FAILED snapshot to state — contradicting the spec's "the
Poller returns Failed and never retries after that point". -/
theorem create_failed_after_polling_saved_as_success :
    clusterCreateFlow planExample (.ok [pendingCluster]) [FetchResult.ok failedCluster]
      = (.succeeded (saveFromResponse planExample failedCluster), 2)
    ∧ (saveFromResponse planExample failedCluster).Status = "FAILED"
    ∧ clusterCreateFlow planExample (.ok [failedCluster]) [] = (.failedStatus, 1) := by
  refine ⟨?_, rfl, rfl⟩
  decide

/-- C2: for every fetch sequence of non-terminal statuses ending in a
READY snapshot, the create flow returns success with the state populated
from the last fetched snapshot, after exactly the sequence's length in
fetches (pending fetches + the READY fetch + the initial list fetch). -/
theorem create_poll_succeeds_on_ready_sequence
    (plan : ClusterResourceModel) (first last : MdsCluster)
    (mids cs : List MdsCluster) (rest : List FetchResult)
    (hpend : ∀ c ∈ first :: mids, c.Status ≠ "READY" ∧ c.Status ≠ "FAILED")
    (hlast : last.Status = "READY") :
    clusterCreateFlow plan (.ok (first :: cs))
        ((mids ++ [last]).map FetchResult.ok ++ rest)
      = (.succeeded (saveFromResponse plan last), mids.length + 2) := by
  have h1 := hpend first (by simp)
  have hrun := pollLoop_ready_run mids first last rest hpend hlast
  simp only [clusterCreateFlow]
  rw [if_neg h1.2, hrun]

/-- C2 witness: the scenario [pending, pending, ready] returns success
with the READY snapshot saved, after exactly 3 fetches. -/
theorem create_poll_succeeds_on_ready_sequence_witness :
    clusterCreateFlow planExample (.ok [pendingCluster])
        [FetchResult.ok pendingCluster, FetchResult.ok readyCluster]
      = (.succeeded (saveFromResponse planExample readyCluster), 3) :=
  create_poll_succeeds_on_ready_sequence planExample pendingCluster readyCluster
    [pendingCluster] [] [] (by decide) (by decide)

/-- C3: during delete confirmation, a fetch failing with an API 404 makes
the Delete operation succeed immediately: for any run of successful
fetches followed by a 404, the loop returns success after exactly those
fetches plus one, regardless of anything that might come later (no
further fetch happens).  With no successful fetch before the 404 this is
success after exactly 1 fetch. -/
theorem delete_confirm_succeeds_on_not_found
    (cs : List MdsCluster) (rest : List FetchResult) :
    deleteConfirmLoop (cs.map FetchResult.ok ++ FetchResult.err (.api 404) :: rest)
      = (.succeeded, cs.length + 1) := by
  rw [deleteConfirmLoop_ok_run]
  simp [deleteConfirmLoop, Nat.add_comm]

/-- C4: a fetch error aborts either polling loop immediately.  In the
create loop any fetch error after a run of pending snapshots yields a
transport-error diagnostic after exactly that fetch, and nothing after
the failing fetch is ever consumed; an error on the initial list fetch
aborts after that single call; in the delete-confirmation loop any
error other than an API 404 does the same. -/
theorem transport_error_aborts_polling :
    (∀ (first : MdsCluster) (mids : List MdsCluster) (e : FetchError)
        (rest : List FetchResult),
      (∀ c ∈ first :: mids, c.Status ≠ "READY" ∧ c.Status ≠ "FAILED") →
      pollLoop first (mids.map FetchResult.ok ++ FetchResult.err e :: rest)
        = (.transportError, mids.length + 1))
    ∧ (∀ (plan : ClusterResourceModel) (e : FetchError) (fetches : List FetchResult),
      clusterCreateFlow plan (.err e) fetches = (.transportError, 1))
    ∧ (∀ (cs : List MdsCluster) (e : FetchError) (rest : List FetchResult),
      e ≠ FetchError.api 404 →
      deleteConfirmLoop (cs.map FetchResult.ok ++ FetchResult.err e :: rest)
        = (.transportError, cs.length + 1)) := by
  refine ⟨?_, fun plan e fetches => rfl, ?_⟩
  · intro first mids e rest hpend
    exact pollLoop_err_run mids first e rest hpend
  · intro cs e rest hne
    rw [deleteConfirmLoop_ok_run]
    match e with
    | .api sc =>
      have hsc : sc ≠ 404 := fun h => hne (by rw [h])
      simp [deleteConfirmLoop, hsc, Nat.add_comm]
    | .generic => simp [deleteConfirmLoop, Nat.add_comm]

/-- C4 witness: a generic fetch error at the first poll aborts the create
loop after 1 fetch; an API 500 after one successful delete-confirmation
fetch aborts after 2 fetches. -/
theorem transport_error_aborts_polling_witness :
    pollLoop pendingCluster [FetchResult.err .generic] = (.transportError, 1)
    ∧ deleteConfirmLoop [FetchResult.ok readyCluster, FetchResult.err (.api 500)]
      = (.transportError, 2) :=
  ⟨transport_error_aborts_polling.1 pendingCluster [] .generic [] (by decide),
   transport_error_aborts_polling.2.2 [readyCluster] (.api 500) [] (by decide)⟩

/-- C5: the create polling loop only reports success holding a snapshot
whose status is terminal (READY or FAILED); while every observed status
is non-terminal it consumes every available fetch and never stops of its
own accord (no attempt bound or deadline exists); and the
delete-confirmation loop only reports success when the fetch it stopped
at was the API 404 confirming absence. -/
theorem poll_success_only_terminal_and_unbounded :
    (∀ (c : MdsCluster) (fetches : List FetchResult) (c2 : MdsCluster) (n : Nat),
      pollLoop c fetches = (.succeeded c2, n) →
      c2.Status = "READY" ∨ c2.Status = "FAILED")
    ∧ (∀ (first : MdsCluster) (cs : List MdsCluster),
      (∀ c ∈ first :: cs, c.Status ≠ "READY" ∧ c.Status ≠ "FAILED") →
      pollLoop first (cs.map FetchResult.ok) = (.outOfFetches, cs.length))
    ∧ (∀ (fetches : List FetchResult) (n : Nat),
      deleteConfirmLoop fetches = (.succeeded, n) →
      1 ≤ n ∧ fetches.get? (n - 1) = some (.err (.api 404))) := by
  refine ⟨?_, ?_, fun fetches n h => deleteConfirmLoop_succeeded_spec fetches n h⟩
  · intro c fetches
    induction fetches generalizing c with
    | nil =>
      intro c2 n h
      by_cases hc : c.Status ≠ "READY" ∧ c.Status ≠ "FAILED"
      · simp [pollLoop, hc] at h
      · have hcc : c = c2 := by
          have := congrArg Prod.fst (pollLoop_terminal c [] hc)
          rw [h] at this
          simpa using this.symm
        subst hcc
        rw [Decidable.not_and_iff_or_not, not_not, not_not] at hc
        exact hc
    | cons f rest ih =>
      intro c2 n h
      by_cases hc : c.Status ≠ "READY" ∧ c.Status ≠ "FAILED"
      · match f with
        | .err e => simp [pollLoop, hc] at h
        | .ok c3 =>
          rw [pollLoop_pending_ok c c3 rest hc] at h
          have h1 : (pollLoop c3 rest).1 = .succeeded c2 := by
            have := congrArg Prod.fst h
            simpa using this
          exact ih c3 c2 (pollLoop c3 rest).2 (by rw [← h1])
      · have hcc : c = c2 := by
          have := congrArg Prod.fst (pollLoop_terminal c (f :: rest) hc)
          rw [h] at this
          simpa using this.symm
        subst hcc
        rw [Decidable.not_and_iff_or_not, not_not, not_not] at hc
        exact hc
  · intro first cs hpend
    induction cs generalizing first with
    | nil =>
      have h1 := hpend first (by simp)
      simp [pollLoop, h1]
    | cons m ms ih =>
      have h1 := hpend first (by simp)
      have h2 : ∀ c ∈ m :: ms, c.Status ≠ "READY" ∧ c.Status ≠ "FAILED" := by
        intro c hc
        exact hpend c (by simp at hc ⊢; tauto)
      simp only [List.map_cons]
      rw [pollLoop_pending_ok first m _ h1, ih m h2]
      rfl

/-- C5 witness: applying the terminal-on-success invariant to the run
[pending, ready] shows the snapshot the loop succeeded with has a
terminal status. -/
theorem poll_success_only_terminal_and_unbounded_witness :
    readyCluster.Status = "READY" ∨ readyCluster.Status = "FAILED" :=
  poll_success_only_terminal_and_unbounded.1 pendingCluster
    [FetchResult.ok readyCluster] readyCluster 1 (by decide)

/-!
Claims about the state mappers.
-/

/-- One call of the regions mapper appends the response's entries to
whatever the state already holds, leaving every other field unchanged. -/
theorem saveRegionsToState_eq (st : RegionsDataSourceModel)
    (regions : List (String × List String)) :
    saveRegionsToState st regions
      = { st with Regions := st.Regions ++ regionsEntries regions } := by
  induction regions generalizing st with
  | nil => simp [saveRegionsToState, regionsEntries]
  | cons p ps ih =>
    have h1 : saveRegionsToState st (p :: ps)
        = saveRegionsToState
            { st with Regions := st.Regions ++ [{ ID := p.1, Name := p.1, DataPlaneIds := p.2 }] }
            ps := rfl
    rw [h1, ih]
    simp [regionsEntries, List.append_assoc]

/-- A concrete regions data source state before mapping. -/
def regionsStateExample : RegionsDataSourceModel :=
  { Cpu := "2", Provider := "aws", Memory := "4Gi", Storage := "10Gi"
    NodeCount := "3", Regions := [], DedicatedDataPlane := false, Id := "" }

/-- A concrete one-region response. -/
def regionsRespExample : List (String × List String) :=
  [("eu-west-2", ["dp-1"])]

/-- C6 counterexample: applying the regions mapper twice to the same
one-region response does not equal applying it once — the second call
appends the entries again, so the claimed idempotence fails for
`saveRegionsToState`. -/
theorem regions_mapper_not_idempotent_cex :
    saveRegionsToState (saveRegionsToState regionsStateExample regionsRespExample)
        regionsRespExample
      ≠ saveRegionsToState regionsStateExample regionsRespExample := by
  decide

/-- C6 (amended): the cluster response-to-state mapper is idempotent, but
the regions mapper is not: each call appends the response's entries to
the regions already in the state, so a second call with a nonempty
response duplicates them; it is idempotent only for the empty response. -/
theorem mappers_idempotence_amended :
    (∀ (s : ClusterResourceModel) (c : MdsCluster),
      saveFromResponse (saveFromResponse s c) c = saveFromResponse s c)
    ∧ (∀ (st : RegionsDataSourceModel) (regions : List (String × List String)),
      (saveRegionsToState (saveRegionsToState st regions) regions).Regions
        = st.Regions ++ regionsEntries regions ++ regionsEntries regions)
    ∧ (∀ st : RegionsDataSourceModel,
      saveRegionsToState (saveRegionsToState st []) [] = saveRegionsToState st []) := by
  refine ⟨fun s c => rfl, fun st regions => ?_, fun st => rfl⟩
  simp [saveRegionsToState_eq, List.append_assoc]

/-- C7 counterexample: two pre-call states differing only in `dedicated`
are mapped to different outputs from the same snapshot, and each output
keeps its pre-call `dedicated` value — so the cluster mapper does not
write every declared attribute: `dedicated` (likewise `shared` and
`network_policy_ids`) is left holding its pre-call value. -/
theorem cluster_mapper_retains_precall_values_cex :
    (saveFromResponse planExample readyCluster).Dedicated = planExample.Dedicated
    ∧ (saveFromResponse { planExample with Dedicated := false } readyCluster).Dedicated
      = false
    ∧ saveFromResponse planExample readyCluster
      ≠ saveFromResponse { planExample with Dedicated := false } readyCluster := by
  decide

/-- C7 (amended): one call of the cluster mapper writes every declared
attribute from the snapshot except `dedicated`, `shared` and
`network_policy_ids`, which keep their pre-call values; when the
response carries no metadata the metadata object is defaulted to empty
strings and a null list, and otherwise it is built from the response's
metadata. -/
theorem cluster_mapper_written_fields_amended
    (s : ClusterResourceModel) (c : MdsCluster) :
    ((saveFromResponse s c).ID = c.ID
      ∧ (saveFromResponse s c).Name = c.Name
      ∧ (saveFromResponse s c).ServiceType = c.ServiceType
      ∧ (saveFromResponse s c).Provider = c.Provider
      ∧ (saveFromResponse s c).InstanceSize = c.InstanceSize
      ∧ (saveFromResponse s c).Region = c.Region
      ∧ (saveFromResponse s c).Status = c.Status
      ∧ (saveFromResponse s c).OrgId = c.OrgId
      ∧ (saveFromResponse s c).DataPlaneId = c.DataPlaneId
      ∧ (saveFromResponse s c).LastUpdated = c.LastUpdated
      ∧ (saveFromResponse s c).Created = c.Created
      ∧ (saveFromResponse s c).Tags = c.Tags)
    ∧ ((saveFromResponse s c).Dedicated = s.Dedicated
      ∧ (saveFromResponse s c).Shared = s.Shared
      ∧ (saveFromResponse s c).NetworkPolicyIds = s.NetworkPolicyIds)
    ∧ (c.Metadata = none →
      (saveFromResponse s c).Metadata
        = { ManagerUri := "", ConnectionUri := "", MetricsEndpoints := none })
    ∧ (∀ m, c.Metadata = some m →
      (saveFromResponse s c).Metadata
        = { ManagerUri := m.ManagerUri, ConnectionUri := m.ConnectionUri,
            MetricsEndpoints := some m.MetricsEndpoints }) := by
  refine ⟨⟨rfl, rfl, rfl, rfl, rfl, rfl, rfl, rfl, rfl, rfl, rfl, rfl⟩,
    ⟨rfl, rfl, rfl⟩, fun h => ?_, fun m h => ?_⟩
  · simp [saveFromResponse, h]
  · simp [saveFromResponse, h]

/-- C7 witness: applied to a snapshot without metadata, the mapper
defaults the metadata object. -/
theorem cluster_mapper_written_fields_amended_witness :
    (saveFromResponse planExample pendingCluster).Metadata
      = { ManagerUri := "", ConnectionUri := "", MetricsEndpoints := none } :=
  (cluster_mapper_written_fields_amended planExample pendingCluster).2.2.1 rfl

/-!
Claims about the service-roles data source Read.
-/

/-- C8: reading an API response whose `ServiceRoleDTO` list is empty hits
the unguarded index `ServiceRoleDTO[0]` and panics instead of returning
a diagnostic; with at least one DTO entry the Read returns normally with
the roles built from the first entry. -/
theorem service_roles_read_empty_dto_panics :
    (∀ t : String, serviceRolesRead t (.ok []) = .indexOutOfRange)
    ∧ (∀ (t : String) (d : ServiceRoleDTO) (rest : List ServiceRoleDTO),
      serviceRolesRead t (.ok (d :: rest)) = .okState (serviceRolesRoles d.Roles) t) :=
  ⟨fun _ => rfl, fun _ _ _ => rfl⟩

/-- C9: the service-roles Read ignores the configured `type`: the query
it sends always carries the constant RABBITMQ role type, and two
configurations differing only in `type` produce the identical roles
list for every response. -/
theorem service_roles_read_ignores_type_config :
    (∀ t1 t2 : String, serviceRolesQuery t1 = serviceRolesQuery t2)
    ∧ (∀ t : String, serviceRolesQuery t = { «Type» := roleTypeRABBITMQ })
    ∧ (∀ (t1 t2 : String) (resp : Except FetchError (List ServiceRoleDTO)),
      readRolesList (serviceRolesRead t1 resp)
        = readRolesList (serviceRolesRead t2 resp)) := by
  refine ⟨fun _ _ => rfl, fun _ => rfl, fun t1 t2 resp => ?_⟩
  match resp with
  | .error e => rfl
  | .ok [] => rfl
  | .ok (d :: rest) => rfl

/-- The length of the roles list built by the nested read loops: one
whole copy of `allRoles` per element of `rem`. -/
theorem rolesLoop_length (allRoles : List MdsRole) :
    ∀ (rem : List MdsRole) (permAcc : List MdsServiceRolePermissionsModel),
    (rolesLoop allRoles rem permAcc).length = rem.length * allRoles.length
  | [], _ => by simp [rolesLoop]
  | r :: rest, permAcc => by
    simp [rolesLoop, rolesLoop_length allRoles rest]
    ring

/-- Closed form of the nested read loops: the k-th outer iteration emits
one entry per role of `allRoles`, each carrying the permissions of the
first k+1 elements of `rem` concatenated onto the accumulator. -/
theorem rolesLoop_closed_form (allRoles : List MdsRole) :
    ∀ (rem : List MdsRole) (permAcc : List MdsServiceRolePermissionsModel),
    rolesLoop allRoles rem permAcc
      = (List.range rem.length).flatMap
          (fun k => allRoles.map fun r =>
            mkRoleModel r (permAcc ++ (rem.take (k + 1)).flatMap permissionsOf))
  | [], permAcc => by simp [rolesLoop]
  | r :: rest, permAcc => by
    rw [rolesLoop, rolesLoop_closed_form allRoles rest (permAcc ++ permissionsOf r)]
    rw [List.length_cons, List.range_succ_eq_map]
    simp [List.flatMap_cons, List.flatMap_map, Function.comp, List.take_succ_cons,
      List.append_assoc]

/-- C10: for a response whose first DTO holds n roles (n ≥ 1), the Read
appends n·n entries to state — every role once per outer-loop iteration —
and an entry appended during outer iteration k (0-based) carries as its
permissions the concatenation of the permissions of roles 0 through k,
not the permissions of the entry's own role. -/
theorem service_roles_read_duplication (roles : List MdsRole)
    (_h : 1 ≤ roles.length) :
    (serviceRolesRoles roles).length = roles.length * roles.length
    ∧ serviceRolesRoles roles
      = (List.range roles.length).flatMap
          (fun k => roles.map fun r =>
            mkRoleModel r ((roles.take (k + 1)).flatMap permissionsOf)) := by
  constructor
  · rw [serviceRolesRoles, rolesLoop_length]
  · rw [serviceRolesRoles, rolesLoop_closed_form]
    simp

/-- Two concrete roles with one permission each. -/
def roleA : MdsRole :=
  { RoleID := "role-a", Name := "admin", Description := "administrator"
    «Type» := "RABBITMQ"
    Permissions := [{ Name := "read", Description := "read permission", PermissionId := "p-1" }] }

/-- A second concrete role. -/
def roleB : MdsRole :=
  { RoleID := "role-b", Name := "monitor", Description := "monitoring"
    «Type» := "RABBITMQ"
    Permissions := [{ Name := "write", Description := "write permission", PermissionId := "p-2" }] }

/-- C10 witness: a two-role response yields 2·2 = 4 state entries. -/
theorem service_roles_read_duplication_witness :
    (serviceRolesRoles [roleA, roleB]).length = 2 * 2 :=
  (service_roles_read_duplication [roleA, roleB] (by decide)).1
